import Mathlib

/-!
Verification of the janet-poolparty worker pool.

Shallow embedding of `src/poolparty.go` (package `poolparty`): a pool of
long-lived worker processes fed over pipes with JSON framing.

The pure parts (configuration validation in `NewWorkerPool`) are embedded
as Lean functions.  The concurrent parts are embedded as labelled
transition systems translated statement-by-statement from the source:

* `Poolparty.workerStep` is the body of the goroutine started by
  `spawnWorker` (poolparty.go lines 88-223).  Each state is one blocking
  point or decision point of that goroutine; each event is one way the
  corresponding Go statement can return.  An event is applicable in a
  state exactly when the Go statement blocked at that point can be woken
  by it — in particular the `cancel` event (the shared `workerCtx` being
  cancelled) is applicable exactly in the states whose Go statement is a
  `select` containing a `<-p.workerCtx.Done()` case.

* `Poolparty.handoffValid` / `Poolparty.dispatchOutcome` model the two
  `select` statements of `Dispatch` (poolparty.go lines 225-254).  A Go
  `select` completes with the case whose channel becomes ready first;
  among simultaneously ready cases the choice is nondeterministic.  We
  model this with explicit ready times: `HandoffEnv` records when the
  pool context is cancelled and when (and by which worker) a rendezvous
  receive on `p.dispatch` happens, and `handoffValid` accepts a branch
  exactly when no other branch is ready strictly earlier.
-/

namespace Poolparty

/-- log15.Logger is opaque to the pool; the code only compares it to nil
(modelled by `Option Logger`) and calls `log15.New()` (modelled by
`Logger.default`). -/
inductive Logger
  | default
  | custom (n : Nat)
deriving DecidableEq

/-- JanetRequest from poolparty.go lines 31-35. -/
structure JanetRequest where
  requestID : String
  headers : String
  body : String
deriving DecidableEq

/-- JanetResponse from poolparty.go lines 37-41. -/
structure JanetResponse where
  status : Int
  headers : List String
  body : String
deriving DecidableEq

/-- Go error values produced by the pool: the two sentinel errors of
poolparty.go lines 16-19, raw I/O errors, and the three `fmt.Errorf`
wrappings (`"error writing to worker process: %w"` line 169,
`"decoding worker process response: %w"` line 181,
`"request failed: %w"` line 250). -/
inductive GoErr
  | ioErr (msg : String)
  | wrapEncode (inner : GoErr)
  | wrapDecode (inner : GoErr)
  | requestFailed (inner : GoErr)
  | poolBusy
  | poolClosed
deriving DecidableEq

/-- PoolConfig from poolparty.go lines 21-26.  `numWorkers` is a Go
`int`, so it is embedded as `Int` (the `< 0` check is meaningful);
`workerRequestTimeout` is an abstract duration in ticks. -/
structure PoolConfig where
  logger : Option Logger
  numWorkers : Int
  workerProc : List String
  workerRequestTimeout : Nat
deriving DecidableEq

/-- workRequest from poolparty.go lines 43-46.  The single-use response
channel is identified by a numeral. -/
structure workRequest where
  req : JanetRequest
  respChan : Nat
deriving DecidableEq

/-- workResponse from poolparty.go lines 48-51. -/
structure workResponse where
  err : Option GoErr
  resp : JanetResponse
deriving DecidableEq

/-- The pool object returned by NewWorkerPool: the (logger-normalised)
configuration plus the number of worker loops started
(poolparty.go lines 53-59, 81-83). -/
structure WorkerPool where
  cfg : PoolConfig
  numLoops : Nat
deriving DecidableEq

/-- One `p.spawnWorker()` call made by the construction loop
(poolparty.go lines 81-83). -/
inductive SpawnEvent
  | spawnLoop (i : Nat)
deriving DecidableEq

/-- NewWorkerPool, poolparty.go lines 61-86.  The second component of
the result is the list of spawnWorker calls performed, in order: the
error paths return before the spawn loop runs, so they produce `[]`. -/
def newWorkerPool (cfg0 : PoolConfig) : Except String WorkerPool × List SpawnEvent :=
  let cfg : PoolConfig := { cfg0 with logger := some (cfg0.logger.getD Logger.default) }
  if cfg.numWorkers < 0 then
    (Except.error "pool needs at least one worker", [])
  else if cfg.workerProc.length ≤ 0 then
    (Except.error "pool worker proc must not be empty", [])
  else
    (Except.ok { cfg := cfg, numLoops := cfg.numWorkers.toNat },
     (List.range cfg.numWorkers.toNat).map SpawnEvent.spawnLoop)

/-- Whether construction succeeded. -/
def createOk (cfg : PoolConfig) : Bool :=
  match (newWorkerPool cfg).fst with
  | Except.ok _ => true
  | Except.error _ => false

/-! ## The Dispatch call (poolparty.go lines 225-254)

`Dispatch` runs two `select` statements.  The first (lines 237-243)
races the handoff timer `t` (armed with the caller-supplied timeout,
line 234), the pool context `p.workerCtx.Done()`, and the rendezvous
send `p.dispatch <- workReq`.  The second (lines 245-253) races only
the pool context and the private response channel: the handoff timer
is not a case of the second select, so it cannot influence the result
once a worker has accepted the item. -/

/-- What the rest of the system does during one Dispatch call, as ready
times measured from the moment Dispatch runs its first `select`:
`closedAt` is when `p.workerCtx.Done()` becomes ready (`none`: not
during this call; after Close has returned it is `some 0`), and
`acceptAt` is when a worker loop executes the matching receive
`workReq = <-p.dispatch`, together with the index of that loop. -/
structure HandoffEnv where
  closedAt : Option Nat
  acceptAt : Option (Nat × Nat)
deriving DecidableEq

/-- The branch the first `select` of Dispatch completes with. -/
inductive HandoffChoice
  | timerFired
  | ctxDone
  | sent (w : Nat)
deriving DecidableEq

/-- The time at which the rendezvous receive happens, if any. -/
def acceptTime (env : HandoffEnv) : Option Nat :=
  env.acceptAt.map Prod.fst

/-- `readyNoLater t o`: a branch ready at time `t` is not beaten
strictly by a branch whose ready time is recorded in `o`. -/
def readyNoLater (t : Nat) (o : Option Nat) : Bool :=
  o.all fun u => t ≤ u

/-- An environment is meaningful for pool `p` only if any recorded
rendezvous receive is executed by one of the worker loops `p` actually
started (a receive on `p.dispatch` can only be executed by a goroutine
spawned in the construction loop). -/
def envWF (p : WorkerPool) (env : HandoffEnv) : Bool :=
  env.acceptAt.all fun a => a.snd < p.numLoops

/-- Go `select` semantics for the first select of Dispatch
(poolparty.go lines 237-243): a branch can be taken exactly when it is
ready (the timer at time `timeout`, the context at `closedAt`, the
rendezvous at `acceptAt`) and no other branch is ready strictly
earlier.  Simultaneously ready branches are all valid: the choice
among them is nondeterministic, as in Go. -/
def handoffValid (p : WorkerPool) (timeout : Nat) (env : HandoffEnv) :
    HandoffChoice → Bool
  | HandoffChoice.timerFired =>
      readyNoLater timeout env.closedAt && readyNoLater timeout (acceptTime env)
  | HandoffChoice.ctxDone =>
      match env.closedAt with
      | none => false
      | some tc => decide (tc ≤ timeout) && readyNoLater tc (acceptTime env)
  | HandoffChoice.sent w =>
      match env.acceptAt with
      | none => false
      | some a =>
          (a.snd == w) && decide (w < p.numLoops) && decide (a.fst ≤ timeout)
            && readyNoLater a.fst env.closedAt
/-- The branch the second `select` of Dispatch completes with
(poolparty.go lines 245-253): only the pool context or the private
response channel — there is no timer case. -/
inductive Phase2Event
  | ctxDone
  | reply (r : workResponse)
deriving DecidableEq

/-- The value-or-error result of one Dispatch call. -/
inductive DispatchOutcome
  | response (r : JanetResponse)
  | failure (e : GoErr)
deriving DecidableEq

/-- The return value of Dispatch as a function of which select branches
fired, read off poolparty.go lines 237-253: timer → ErrWorkerPoolBusy;
context done (in either select) → ErrWorkerPoolClosed; a reply with a
non-nil Err → `fmt.Errorf("request failed: %w", r.Err)`; otherwise the
decoded response.  Note the second select gives the handoff timeout no
role after acceptance. -/
def dispatchOutcome : HandoffChoice → Phase2Event → DispatchOutcome
  | HandoffChoice.timerFired, _ => DispatchOutcome.failure GoErr.poolBusy
  | HandoffChoice.ctxDone, _ => DispatchOutcome.failure GoErr.poolClosed
  | HandoffChoice.sent _, Phase2Event.ctxDone => DispatchOutcome.failure GoErr.poolClosed
  | HandoffChoice.sent _, Phase2Event.reply r =>
      match r.err with
      | some e => DispatchOutcome.failure (GoErr.requestFailed e)
      | none => DispatchOutcome.response r.resp

/-- The outcome is a response. -/
def isResponse : DispatchOutcome → Bool
  | DispatchOutcome.response _ => true
  | DispatchOutcome.failure _ => false

/-- The outcome is an error. -/
def isFailure : DispatchOutcome → Bool
  | DispatchOutcome.response _ => false
  | DispatchOutcome.failure _ => true

/-! ## The worker loop (poolparty.go lines 88-223)

Each state of `WState` is one blocking or decision point of the
goroutine body of `spawnWorker`; `gen` counts iterations of the outer
`for` loop, so two states with different `gen` refer to different
processes, pipes and codecs (all are created afresh at the top of each
outer iteration, lines 100-144).

* `spawning gen`: creating pipes and running `cmd.Start()` (lines 100-141).
* `ready gen`: the inner select on `workerCtx.Done` / `p.dispatch` (149-153).
* `busyEncoding`: blocked inside `encoder.Encode` (line 163); `guard` is
  the duration the request timer was armed with (line 157), `tf` whether
  it has already fired.
* `sendEncodeErr`: the select delivering the encode error (166-172).
* `busyDecoding`: blocked inside `decoder.Decode` (line 176).
* `sendDecodeErr`: the select delivering the decode error (178-184).
* `sendResponse`: the select delivering the response (187-191).
* `stopCheck`: about to run `workerRequestTimeoutTimer.Stop()` (194-196).
* `dying gen`: the closure has returned (its defers closed all pipe
  handles) and the goroutine is blocked in `cmd.Wait()` (lines 204-206).
* `backoffWait gen`: the select on `workerCtx.Done` / 200ms backoff (215-219).
* `exited`: the goroutine has returned (`wg.Done` has run, line 91). -/
inductive WState
  | spawning (gen : Nat)
  | ready (gen : Nat)
  | busyEncoding (gen : Nat) (w : workRequest) (guard : Nat) (tf : Bool)
  | sendEncodeErr (gen : Nat) (w : workRequest) (e : String)
  | busyDecoding (gen : Nat) (w : workRequest) (guard : Nat) (tf : Bool)
  | sendDecodeErr (gen : Nat) (w : workRequest) (e : String)
  | sendResponse (gen : Nat) (w : workRequest) (r : JanetResponse) (tf : Bool)
  | stopCheck (gen : Nat) (w : workRequest) (tf : Bool)
  | dying (gen : Nat)
  | backoffWait (gen : Nat)
  | exited
deriving DecidableEq

/-- The ways the Go statement a worker loop is blocked at can return:
`cancel` is `<-p.workerCtx.Done()` becoming ready, `timerFire` is the
`time.AfterFunc` guard firing (it closes p2 and p3, line 157-161),
`deliverOk` is the send on `workReq.RespChan` being received by the
caller, `stopReturns` is the `Stop()` call of line 194 returning,
`procExited` is `cmd.Wait()` returning, `sleepDone` is the 200ms
backoff elapsing. -/
inductive WEvent
  | cancel
  | spawnOk
  | spawnFail (e : String)
  | recvWork (w : workRequest)
  | encodeOk
  | encodeErr (e : String)
  | decodeOk (r : JanetResponse)
  | decodeErr (e : String)
  | timerFire
  | deliverOk
  | stopReturns
  | procExited
  | sleepDone
deriving DecidableEq

/-- A value delivered on a response channel. -/
inductive WOutput
  | deliverErr (ch : Nat) (e : GoErr)
  | deliverResp (ch : Nat) (r : JanetResponse)
deriving DecidableEq

/-- One transition of the spawnWorker goroutine (poolparty.go lines
88-223): `none` means the event cannot wake the statement the goroutine
is blocked at in that state.  In particular `cancel` is applicable
exactly at the three response-channel selects, the dispatch select and
the backoff select — `encoder.Encode`, `decoder.Decode` and `cmd.Wait`
are plain blocking calls with no `select` around them, so `cancel` is
not applicable there. -/
def workerStep (cfg : PoolConfig) : WState → WEvent → Option (WState × Option WOutput)
  | WState.spawning g, WEvent.spawnOk => some (WState.ready g, none)
  | WState.spawning g, WEvent.spawnFail _ => some (WState.backoffWait g, none)
  | WState.ready g, WEvent.cancel => some (WState.dying g, none)
  | WState.ready g, WEvent.recvWork w =>
      some (WState.busyEncoding g w cfg.workerRequestTimeout false, none)
  | WState.busyEncoding g w gd _, WEvent.timerFire =>
      some (WState.busyEncoding g w gd true, none)
  | WState.busyEncoding g w gd tf, WEvent.encodeOk =>
      some (WState.busyDecoding g w gd tf, none)
  | WState.busyEncoding g w _ _, WEvent.encodeErr e =>
      some (WState.sendEncodeErr g w e, none)
  | WState.sendEncodeErr g _ _, WEvent.cancel => some (WState.dying g, none)
  | WState.sendEncodeErr g w e, WEvent.deliverOk =>
      some (WState.dying g,
        some (WOutput.deliverErr w.respChan (GoErr.wrapEncode (GoErr.ioErr e))))
  | WState.busyDecoding g w gd _, WEvent.timerFire =>
      some (WState.busyDecoding g w gd true, none)
  | WState.busyDecoding g w _ tf, WEvent.decodeOk r =>
      some (WState.sendResponse g w r tf, none)
  | WState.busyDecoding g w _ _, WEvent.decodeErr e =>
      some (WState.sendDecodeErr g w e, none)
  | WState.sendDecodeErr g _ _, WEvent.cancel => some (WState.dying g, none)
  | WState.sendDecodeErr g w e, WEvent.deliverOk =>
      some (WState.dying g,
        some (WOutput.deliverErr w.respChan (GoErr.wrapDecode (GoErr.ioErr e))))
  | WState.sendResponse g w r _, WEvent.timerFire =>
      some (WState.sendResponse g w r true, none)
  | WState.sendResponse g _ _ _, WEvent.cancel => some (WState.dying g, none)
  | WState.sendResponse g w r tf, WEvent.deliverOk =>
      some (WState.stopCheck g w tf, some (WOutput.deliverResp w.respChan r))
  | WState.stopCheck g w _, WEvent.timerFire => some (WState.stopCheck g w true, none)
  | WState.stopCheck g _ tf, WEvent.stopReturns =>
      some (if tf then WState.dying g else WState.ready g, none)
  | WState.dying g, WEvent.procExited => some (WState.backoffWait g, none)
  | WState.backoffWait _, WEvent.cancel => some (WState.exited, none)
  | WState.backoffWait g, WEvent.sleepDone => some (WState.spawning (g + 1), none)
  | _, _ => none

/-- Some transition relates `s` to s2. -/
def stepRel (cfg : PoolConfig) (s s2 : WState) : Prop :=
  ∃ e o, workerStep cfg s e = some (s2, o)

/-- Reachability in zero or more worker-loop transitions. -/
def Steps (cfg : PoolConfig) : WState → WState → Prop :=
  Relation.ReflTransGen (stepRel cfg)

/-- The worker loop currently holds a started, not yet reaped process:
true from the moment `cmd.Start()` succeeded until `cmd.Wait()`
returned. -/
def procLive : WState → Bool
  | WState.spawning _ => false
  | WState.backoffWait _ => false
  | WState.exited => false
  | _ => true

/-- The worker loop goroutine has returned. -/
def isExited : WState → Bool
  | WState.exited => true
  | _ => false

/-! ## Pool-level close (poolparty.go lines 256-259) -/

/-- The pool as Close sees it: whether `cancelWorkers` has run, and the
state of every worker loop goroutine. -/
structure PoolState where
  cancelled : Bool
  workers : List WState
deriving DecidableEq

/-- `p.cancelWorkers()` (line 257): cancelling the shared context. -/
def closeSignal (ps : PoolState) : PoolState :=
  { ps with cancelled := true }

/-- The `sync.WaitGroup` counter: one `wg.Add(1)` per spawnWorker call
(line 89), one deferred `wg.Done()` per goroutine return (line 91), so
the counter equals the number of not yet exited worker loops. -/
def wgCount (ps : PoolState) : Nat :=
  ps.workers.countP fun s => !isExited s

/-- Close has returned: `cancelWorkers` has run and `wg.Wait()` (line
258) has returned, which happens exactly when the counter is zero. -/
def closeReturned (ps : PoolState) : Bool :=
  ps.cancelled && (wgCount ps == 0)

/-! ## Concrete values used in witnesses and counterexamples -/

/-- A concrete request. -/
def reqEx : JanetRequest :=
  { requestID := "req-1", headers := "host: a", body := "hello" }

/-- A concrete work item on response channel 0. -/
def wEx : workRequest := { req := reqEx, respChan := 0 }

/-- A concrete response. -/
def respEx : JanetResponse := { status := 200, headers := [], body := "hello" }

/-- A concrete valid configuration. -/
def cfgEx : PoolConfig :=
  { logger := none, numWorkers := 1, workerProc := ["janet", "worker.janet"],
    workerRequestTimeout := 7 }

/-- A concrete pool with two worker loops. -/
def pEx : WorkerPool := { cfg := cfgEx, numLoops := 2 }

/-- The environment of a Dispatch call during which neither cancellation
nor a worker receive happens. -/
def envQuiet : HandoffEnv := { closedAt := none, acceptAt := none }

/-- The environment of a Dispatch call made after Close has returned:
the context channel is ready from time 0, and no worker loop can ever
execute a receive (they have all exited). -/
def envAfterClose : HandoffEnv := { closedAt := some 0, acceptAt := none }

/-- A concrete configuration with zero workers. -/
def cfgZero : PoolConfig :=
  { logger := none, numWorkers := 0, workerProc := ["janet"],
    workerRequestTimeout := 5 }

/-- The pool NewWorkerPool builds from `cfgZero`. -/
def pZero : WorkerPool :=
  { cfg := { cfgZero with logger := some Logger.default }, numLoops := 0 }

/-- A pool state in which Close has been signalled and the single
worker loop has exited. -/
def psEx : PoolState := { cancelled := true, workers := [WState.exited] }

/-! ## Helper lemmas -/

/-- Unfolding NewWorkerPool on the `NumWorkers < 0` path. -/
theorem newWorkerPool_negWorkers (cfg : PoolConfig) (h : cfg.numWorkers < 0) :
    newWorkerPool cfg = (Except.error "pool needs at least one worker", []) := by
  simp [newWorkerPool, h]

/-- Unfolding NewWorkerPool on the empty `WorkerProc` path. -/
theorem newWorkerPool_emptyProc (cfg : PoolConfig) (h1 : ¬cfg.numWorkers < 0)
    (h2 : cfg.workerProc = []) :
    newWorkerPool cfg = (Except.error "pool worker proc must not be empty", []) := by
  simp [newWorkerPool, h1, h2]

/-- Unfolding NewWorkerPool on the success path. -/
theorem newWorkerPool_ok (cfg : PoolConfig) (h1 : ¬cfg.numWorkers < 0)
    (h2 : cfg.workerProc ≠ []) :
    newWorkerPool cfg =
      (Except.ok
        { cfg := { cfg with logger := some (cfg.logger.getD Logger.default) },
          numLoops := cfg.numWorkers.toNat },
       (List.range cfg.numWorkers.toNat).map SpawnEvent.spawnLoop) := by
  have h3 : ¬cfg.workerProc.length ≤ 0 := by
    cases h : cfg.workerProc <;> simp_all
  simp [newWorkerPool, h1, h3]

/-- The first select of Dispatch always has a valid branch to complete
with: it cannot block forever past both the timer and the context. -/
theorem handoff_total (p : WorkerPool) (timeout : Nat) (env : HandoffEnv)
    (hwf : envWF p env = true) :
    ∃ c, handoffValid p timeout env c = true := by
  rcases henv : env.acceptAt with _ | a
  · rcases hc : env.closedAt with _ | tc
    · exact ⟨HandoffChoice.timerFired, by
        simp [handoffValid, readyNoLater, acceptTime, henv, hc]⟩
    · by_cases h : tc ≤ timeout
      · exact ⟨HandoffChoice.ctxDone, by
          simp [handoffValid, readyNoLater, acceptTime, henv, hc, h]⟩
      · exact ⟨HandoffChoice.timerFired, by
          simp [handoffValid, readyNoLater, acceptTime, henv, hc]
          omega⟩
  · obtain ⟨ta, w⟩ := a
    have hw : w < p.numLoops := by
      simp [envWF, henv] at hwf
      exact hwf
    rcases hc : env.closedAt with _ | tc
    · by_cases h : ta ≤ timeout
      · exact ⟨HandoffChoice.sent w, by
          simp [handoffValid, readyNoLater, acceptTime, henv, hc, h, hw]⟩
      · exact ⟨HandoffChoice.timerFired, by
          simp [handoffValid, readyNoLater, acceptTime, henv, hc]
          omega⟩
    · by_cases h1 : ta ≤ tc ∧ ta ≤ timeout
      · exact ⟨HandoffChoice.sent w, by
          simp [handoffValid, readyNoLater, acceptTime, henv, hc, hw]
          omega⟩
      · by_cases h2 : tc ≤ timeout
        · refine ⟨HandoffChoice.ctxDone, ?_⟩
          simp [handoffValid, readyNoLater, acceptTime, henv, hc, h2]
          omega
        · refine ⟨HandoffChoice.timerFired, ?_⟩
          simp [handoffValid, readyNoLater, acceptTime, henv, hc]
          omega

/-- Generation lower bound used to show a discarded process is never
reused: once the loop is dying at generation `g`, any later state is at
generation at least `g`, and any later serving state is at a generation
strictly above `g`. -/
def genFloor (g : Nat) : WState → Prop
  | WState.dying g2 => g ≤ g2
  | WState.backoffWait g2 => g ≤ g2
  | WState.exited => True
  | WState.spawning g2 => g < g2
  | WState.ready g2 => g < g2
  | WState.busyEncoding g2 _ _ _ => g < g2
  | WState.sendEncodeErr g2 _ _ => g < g2
  | WState.busyDecoding g2 _ _ _ => g < g2
  | WState.sendDecodeErr g2 _ _ => g < g2
  | WState.sendResponse g2 _ _ _ => g < g2
  | WState.stopCheck g2 _ _ => g < g2

/-- `genFloor` is preserved by every worker-loop transition. -/
theorem genFloor_step {cfg : PoolConfig} {g : Nat} {s s2 : WState}
    (h : stepRel cfg s s2) (hs : genFloor g s) : genFloor g s2 := by
  obtain ⟨e, o, h⟩ := h
  cases s <;> cases e <;> simp_all [workerStep, genFloor] <;>
    (try (obtain ⟨h1, h2⟩ := h; subst h1)) <;>
    first
      | omega
      | (simp_all [genFloor] <;> omega)
      | (rename_i g2 w2 tf2; cases tf2 <;> simp_all [genFloor] <;> omega)

/-- `genFloor` is preserved by reachability. -/
theorem genFloor_steps {cfg : PoolConfig} {g : Nat} {s s2 : WState}
    (h : Steps cfg s s2) (hs : genFloor g s) : genFloor g s2 := by
  induction h with
  | refl => exact hs
  | tail _ h2 ih => exact genFloor_step h2 ih

/-- The only transition into `exited` is the backoff select taking the
cancellation case, a state in which the process of the current
iteration has already been reaped (or was never started). -/
theorem exited_only_from_backoff {cfg : PoolConfig} {s : WState} {e : WEvent}
    {o : Option WOutput} (h : workerStep cfg s e = some (WState.exited, o)) :
    procLive s = false ∧ e = WEvent.cancel ∧ ∃ g, s = WState.backoffWait g := by
  cases s <;> cases e <;> simp_all [workerStep, procLive] <;>
    (try (split at h)) <;> simp_all

/-- The only transitions into the backoff select come from `cmd.Wait()`
returning, or from a spawn failure in which no process was started. -/
theorem backoff_only_after_reap {cfg : PoolConfig} {s : WState} {e : WEvent}
    {o : Option WOutput} {g : Nat}
    (h : workerStep cfg s e = some (WState.backoffWait g, o)) :
    (s = WState.dying g ∧ e = WEvent.procExited) ∨
      (s = WState.spawning g ∧ ∃ m, e = WEvent.spawnFail m) := by
  cases s <;> cases e <;> simp_all [workerStep] <;>
    (try (split at h)) <;> simp_all

/-! ## Claim theorems -/

/-- C1: every Dispatch call resolves to exactly one outcome — whatever
branches the two selects complete with, the returned value is a
response or an error, never both and never neither; and the first
select always has a branch it can complete with (the call cannot be
stuck with no resolution), including when the pool lifetime is torn
down mid-call. -/
theorem c1_dispatch_exactly_one_outcome (p : WorkerPool) (timeout : Nat)
    (env : HandoffEnv) (hwf : envWF p env = true) :
    (∀ c p2,
      (isResponse (dispatchOutcome c p2) = true ∨ isFailure (dispatchOutcome c p2) = true)
      ∧ ¬(isResponse (dispatchOutcome c p2) = true ∧ isFailure (dispatchOutcome c p2) = true))
    ∧ ∃ c, handoffValid p timeout env c = true := by
  constructor
  · intro c p2
    cases h : dispatchOutcome c p2 <;> simp [isResponse, isFailure]
  · exact handoff_total p timeout env hwf

/-- C1 witness: instantiated at a pool of two workers and a quiet
environment. -/
theorem c1_witness :
    ((isResponse (dispatchOutcome HandoffChoice.timerFired Phase2Event.ctxDone) = true
      ∨ isFailure (dispatchOutcome HandoffChoice.timerFired Phase2Event.ctxDone) = true)
     ∧ ¬(isResponse (dispatchOutcome HandoffChoice.timerFired Phase2Event.ctxDone) = true
         ∧ isFailure (dispatchOutcome HandoffChoice.timerFired Phase2Event.ctxDone) = true))
    ∧ ∃ c, handoffValid pEx 5 envQuiet c = true := by
  have h := c1_dispatch_exactly_one_outcome pEx 5 envQuiet rfl
  exact ⟨h.1 HandoffChoice.timerFired Phase2Event.ctxDone, h.2⟩

/-- C2: NewWorkerPool succeeds exactly when `NumWorkers ≥ 0` and
`WorkerProc` is non-empty; on a validation failure it returns before
the spawn loop, so no spawnWorker call has been made; on success it
makes exactly one spawnWorker call per configured worker. -/
theorem c2_create_validates_before_spawn (cfg : PoolConfig) :
    (createOk cfg = true ↔ (0 ≤ cfg.numWorkers ∧ cfg.workerProc ≠ []))
    ∧ (createOk cfg = false → (newWorkerPool cfg).snd = [])
    ∧ (∀ p tr, newWorkerPool cfg = (Except.ok p, tr) →
        tr = (List.range cfg.numWorkers.toNat).map SpawnEvent.spawnLoop) := by
  by_cases h1 : cfg.numWorkers < 0
  · refine ⟨?_, ?_, ?_⟩
    · rw [show createOk cfg = false by simp [createOk, newWorkerPool_negWorkers cfg h1]]
      simp
      omega
    · intro _
      simp [newWorkerPool_negWorkers cfg h1]
    · intro p tr hok
      rw [newWorkerPool_negWorkers cfg h1] at hok
      simp at hok
  · by_cases h2 : cfg.workerProc = []
    · refine ⟨?_, ?_, ?_⟩
      · rw [show createOk cfg = false by simp [createOk, newWorkerPool_emptyProc cfg h1 h2]]
        simp [h2]
      · intro _
        simp [newWorkerPool_emptyProc cfg h1 h2]
      · intro p tr hok
        rw [newWorkerPool_emptyProc cfg h1 h2] at hok
        simp at hok
    · refine ⟨?_, ?_, ?_⟩
      · rw [show createOk cfg = true by simp [createOk, newWorkerPool_ok cfg h1 h2]]
        simp [h2]
        omega
      · intro hfalse
        rw [show createOk cfg = true by simp [createOk, newWorkerPool_ok cfg h1 h2]] at hfalse
        exact absurd hfalse (by simp)
      · intro p tr hok
        rw [newWorkerPool_ok cfg h1 h2] at hok
        cases hok
        rfl

/-- C2 witness: the validation failure `NumWorkers = -1` spawns
nothing, and a valid configuration is accepted. -/
theorem c2_witness :
    (createOk { cfgEx with numWorkers := -1 } = false →
      (newWorkerPool { cfgEx with numWorkers := -1 }).snd = [])
    ∧ (createOk cfgEx = true ↔ (0 ≤ cfgEx.numWorkers ∧ cfgEx.workerProc ≠ [])) :=
  ⟨(c2_create_validates_before_spawn { cfgEx with numWorkers := -1 }).2.1,
   (c2_create_validates_before_spawn cfgEx).1⟩

/-- C3 counterexample: the claim says every Dispatch call made after
Close has returned fails with PoolClosed.  After Close has returned the
context branch is ready from time 0 and no worker can accept
(`envAfterClose`), but with a handoff timeout of 0 the timer branch of
the first select is ready at the same instant: Go select chooses among
simultaneously ready cases nondeterministically, so the timer branch is
a valid completion and Dispatch then returns ErrWorkerPoolBusy, which
is not ErrWorkerPoolClosed. -/
theorem c3_counterexample :
    handoffValid pEx 0 envAfterClose HandoffChoice.timerFired = true
    ∧ (∀ p2, dispatchOutcome HandoffChoice.timerFired p2
        = DispatchOutcome.failure GoErr.poolBusy)
    ∧ DispatchOutcome.failure GoErr.poolBusy ≠ DispatchOutcome.failure GoErr.poolClosed := by
  refine ⟨rfl, fun p2 => rfl, by simp⟩

/-- C3 (amended): if the handoff timer expires strictly before both the
pool cancellation and any worker acceptance, Dispatch fails with
PoolBusy; if the cancellation lifetime is ready strictly before both
the timer and any acceptance, Dispatch fails with PoolClosed; and every
Dispatch call made after Close has returned, with a positive handoff
timeout, fails with PoolClosed — with a zero handoff timeout the
expired timer is simultaneously ready and the call may instead fail
with PoolBusy. -/
theorem c3_amended_handoff_errors (p : WorkerPool) (timeout : Nat) (env : HandoffEnv) :
    ((env.closedAt.all fun tc => decide (timeout < tc)) = true →
      ((acceptTime env).all fun ta => decide (timeout < ta)) = true →
      ∀ c, handoffValid p timeout env c = true →
        ∀ p2, dispatchOutcome c p2 = DispatchOutcome.failure GoErr.poolBusy)
    ∧ (∀ tc, env.closedAt = some tc → tc < timeout →
        ((acceptTime env).all fun ta => decide (tc < ta)) = true →
        ∀ c, handoffValid p timeout env c = true →
          ∀ p2, dispatchOutcome c p2 = DispatchOutcome.failure GoErr.poolClosed)
    ∧ (env.closedAt = some 0 → env.acceptAt = none → 0 < timeout →
        ∀ c, handoffValid p timeout env c = true →
          ∀ p2, dispatchOutcome c p2 = DispatchOutcome.failure GoErr.poolClosed) := by
  refine ⟨?_, ?_, ?_⟩
  · intro hc ha c hv p2
    cases c with
    | timerFired => rfl
    | ctxDone =>
      rcases henv : env.closedAt with _ | tc
      · simp [handoffValid, henv] at hv
      · simp [henv] at hc
        simp [handoffValid, henv] at hv
        omega
    | sent w =>
      rcases henv : env.acceptAt with _ | a
      · simp [handoffValid, henv] at hv
      · simp [acceptTime, henv] at ha
        simp [handoffValid, henv, readyNoLater] at hv
        omega
  · intro tc hc hlt ha c hv p2
    cases c with
    | timerFired =>
      simp [handoffValid, hc, readyNoLater] at hv
      omega
    | ctxDone => rfl
    | sent w =>
      rcases henv : env.acceptAt with _ | a
      · simp [handoffValid, henv] at hv
      · simp [acceptTime, henv] at ha
        simp [handoffValid, henv, readyNoLater, hc] at hv
        omega
  · intro hc ha hpos c hv p2
    cases c with
    | timerFired =>
      simp [handoffValid, hc, readyNoLater] at hv
      omega
    | ctxDone => rfl
    | sent w => simp [handoffValid, ha] at hv

/-- C3 witness: a quiet open pool with handoff timeout 4 resolves to
PoolBusy, and a pool whose context became ready at time 0 with handoff
timeout 4 resolves to PoolClosed. -/
theorem c3_witness :
    (∀ c, handoffValid pEx 4 envQuiet c = true →
      ∀ p2, dispatchOutcome c p2 = DispatchOutcome.failure GoErr.poolBusy)
    ∧ (∀ c, handoffValid pEx 4 envAfterClose c = true →
        ∀ p2, dispatchOutcome c p2 = DispatchOutcome.failure GoErr.poolClosed) :=
  ⟨(c3_amended_handoff_errors pEx 4 envQuiet).1 rfl rfl,
   (c3_amended_handoff_errors pEx 4 envAfterClose).2.2 rfl rfl (by decide)⟩

/-- C4: a protocol error during Busy — an encode failure, or a decode
failure (EOF and guard-induced pipe closure included) — moves the loop
to the select that delivers the wrapped error to the response channel
of the one work item in flight, and from there to Dying; and from Dying
at generation `g` any serving state the loop ever reaches again is at a
strictly larger generation, that is, on a process, pipe pair and codec
created by a later iteration of the outer loop — the corrupted stream
is never reused. -/
theorem c4_protocol_error_discards (cfg : PoolConfig) (g gd : Nat) (w : workRequest)
    (tf : Bool) (e : String) :
    workerStep cfg (WState.busyEncoding g w gd tf) (WEvent.encodeErr e)
      = some (WState.sendEncodeErr g w e, none)
    ∧ workerStep cfg (WState.sendEncodeErr g w e) WEvent.deliverOk
      = some (WState.dying g,
          some (WOutput.deliverErr w.respChan (GoErr.wrapEncode (GoErr.ioErr e))))
    ∧ workerStep cfg (WState.busyDecoding g w gd tf) (WEvent.decodeErr e)
      = some (WState.sendDecodeErr g w e, none)
    ∧ workerStep cfg (WState.sendDecodeErr g w e) WEvent.deliverOk
      = some (WState.dying g,
          some (WOutput.deliverErr w.respChan (GoErr.wrapDecode (GoErr.ioErr e))))
    ∧ (∀ g2, Steps cfg (WState.dying g) (WState.ready g2) → g < g2)
    ∧ (∀ g2 w2 gd2 tf2, Steps cfg (WState.dying g) (WState.busyEncoding g2 w2 gd2 tf2) →
        g < g2) := by
  refine ⟨rfl, rfl, rfl, rfl, ?_, ?_⟩
  · intro g2 hsteps
    have h := genFloor_steps hsteps (show genFloor g (WState.dying g) from Nat.le_refl g)
    exact h
  · intro g2 w2 gd2 tf2 hsteps
    have h := genFloor_steps hsteps (show genFloor g (WState.dying g) from Nat.le_refl g)
    exact h

/-- C4 witness: the concrete respawn path dying 0 → backoff 0 →
spawning 1 → ready 1 is reachable and the theorem gives 0 < 1. -/
theorem c4_witness :
    Steps cfgEx (WState.dying 0) (WState.ready 1) ∧ 0 < 1 := by
  have h1 : stepRel cfgEx (WState.dying 0) (WState.backoffWait 0) :=
    ⟨WEvent.procExited, none, rfl⟩
  have h2 : stepRel cfgEx (WState.backoffWait 0) (WState.spawning 1) :=
    ⟨WEvent.sleepDone, none, rfl⟩
  have h3 : stepRel cfgEx (WState.spawning 1) (WState.ready 1) :=
    ⟨WEvent.spawnOk, none, rfl⟩
  have hchain : Steps cfgEx (WState.dying 0) (WState.ready 1) :=
    Relation.ReflTransGen.head h1
      (Relation.ReflTransGen.head h2 (Relation.ReflTransGen.single h3))
  exact ⟨hchain,
    (c4_protocol_error_discards cfgEx 0 7 wEx false "EOF").2.2.2.2.1 1 hchain⟩

/-- C5 counterexample: the claim says the encode call, the decode call
and the process-exit wait observe the shared cancellation signal and
unblock immediately when it fires; but `encoder.Encode`,
`decoder.Decode` and `cmd.Wait` are plain blocking calls with no select
around them, so the cancel event is not applicable in those states. -/
theorem c5_counterexample :
    workerStep cfgEx (WState.busyEncoding 0 wEx 7 false) WEvent.cancel = none
    ∧ workerStep cfgEx (WState.busyDecoding 0 wEx 7 false) WEvent.cancel = none
    ∧ workerStep cfgEx (WState.dying 0) WEvent.cancel = none :=
  ⟨rfl, rfl, rfl⟩

/-- C5 (amended): of the blocking points of a worker loop, the dispatch
channel wait, the backoff sleep and the three response-channel delivery
selects observe the shared cancellation signal and unblock when it
fires; the encode call, the decode call and the process-exit wait do
not — they are plain blocking calls, unblocked only by the operation
returning (for a stuck encode or decode, by the Timeout Guard severing
the pipes, which surfaces as an encode or decode error). -/
theorem c5_amended_cancellation_points (cfg : PoolConfig) (g gd : Nat)
    (w : workRequest) (r : JanetResponse) (tf : Bool) (e : String) :
    (workerStep cfg (WState.ready g) WEvent.cancel).isSome = true
    ∧ (workerStep cfg (WState.backoffWait g) WEvent.cancel).isSome = true
    ∧ (workerStep cfg (WState.sendEncodeErr g w e) WEvent.cancel).isSome = true
    ∧ (workerStep cfg (WState.sendDecodeErr g w e) WEvent.cancel).isSome = true
    ∧ (workerStep cfg (WState.sendResponse g w r tf) WEvent.cancel).isSome = true
    ∧ workerStep cfg (WState.busyEncoding g w gd tf) WEvent.cancel = none
    ∧ workerStep cfg (WState.busyDecoding g w gd tf) WEvent.cancel = none
    ∧ workerStep cfg (WState.dying g) WEvent.cancel = none :=
  ⟨rfl, rfl, rfl, rfl, rfl, rfl, rfl, rfl⟩

/-- C6: when the decode succeeded and the response was delivered, the
loop proceeds to the `Stop()` check of the request timer: if the guard
had already fired, `Stop()` returns false and the loop returns — going
to Dying and discarding the process even though a valid response was
just delivered; otherwise the guard is stopped and the loop returns to
Ready at the same generation, i.e. on the same process. -/
theorem c6_fired_guard_discards_despite_response (cfg : PoolConfig) (g : Nat)
    (w : workRequest) (r : JanetResponse) (tf : Bool) :
    workerStep cfg (WState.sendResponse g w r tf) WEvent.deliverOk
      = some (WState.stopCheck g w tf, some (WOutput.deliverResp w.respChan r))
    ∧ workerStep cfg (WState.stopCheck g w true) WEvent.stopReturns
      = some (WState.dying g, none)
    ∧ workerStep cfg (WState.stopCheck g w false) WEvent.stopReturns
      = some (WState.ready g, none) :=
  ⟨rfl, rfl, rfl⟩

/-- C7: Close first signals the shared cancellation (`cancelWorkers`),
which is idempotent, and `wg.Wait()` returns exactly when every worker
loop goroutine has exited; a goroutine exits only from the backoff
select — a state in which the process of the current iteration has been
reaped by `cmd.Wait()` (or was never started), since the only ways into
the backoff select are `cmd.Wait()` returning or a spawn failure.  So
when Close has returned no spawned process is left unreaped. -/
theorem c7_close_idempotent_and_drains (cfg : PoolConfig) (ps : PoolState) :
    closeSignal (closeSignal ps) = closeSignal ps
    ∧ (closeSignal ps).cancelled = true
    ∧ (closeReturned ps = true →
        ps.cancelled = true ∧ ∀ s ∈ ps.workers, s = WState.exited)
    ∧ (∀ s e o, workerStep cfg s e = some (WState.exited, o) →
        procLive s = false ∧ e = WEvent.cancel)
    ∧ (∀ s e o g, workerStep cfg s e = some (WState.backoffWait g, o) →
        (s = WState.dying g ∧ e = WEvent.procExited)
        ∨ (s = WState.spawning g ∧ ∃ m, e = WEvent.spawnFail m)) := by
  refine ⟨rfl, rfl, ?_, ?_, ?_⟩
  · intro h
    simp [closeReturned, wgCount] at h
    obtain ⟨hc, hz⟩ := h
    refine ⟨hc, ?_⟩
    intro s hs
    have h2 := hz s hs
    cases s <;> simp_all [isExited]
  · intro s e o h
    have h2 := exited_only_from_backoff h
    exact ⟨h2.1, h2.2.1⟩
  · intro s e o g h
    exact backoff_only_after_reap h

/-- C7 witness: a cancelled pool state whose single worker loop has
exited satisfies the drain condition, and the transition into `exited`
from the backoff select carries no live process. -/
theorem c7_witness :
    (psEx.cancelled = true ∧ ∀ s ∈ psEx.workers, s = WState.exited)
    ∧ (procLive (WState.backoffWait 0) = false ∧ WEvent.cancel = WEvent.cancel) := by
  have h := c7_close_idempotent_and_drains cfgEx psEx
  exact ⟨h.2.2.1 rfl, h.2.2.2.1 (WState.backoffWait 0) WEvent.cancel none rfl⟩

/-- C8: once the work item has been accepted, the second select of
Dispatch has no timer case: the outcome is PoolClosed on cancellation
or determined by the reply — never PoolBusy, and independent of the
caller-supplied handoff timeout (which `dispatchOutcome` does not even
take after the `sent` branch); the round trip is instead bounded by the
guard the worker loop arms with `WorkerRequestTimeout` at the moment it
receives the item. -/
theorem c8_no_second_timeout_after_acceptance (wi : Nat) (r : JanetResponse)
    (e : GoErr) (cfg : PoolConfig) (g : Nat) (w : workRequest) :
    (∀ p2, dispatchOutcome (HandoffChoice.sent wi) p2
      ≠ DispatchOutcome.failure GoErr.poolBusy)
    ∧ dispatchOutcome (HandoffChoice.sent wi) Phase2Event.ctxDone
        = DispatchOutcome.failure GoErr.poolClosed
    ∧ dispatchOutcome (HandoffChoice.sent wi) (Phase2Event.reply { err := none, resp := r })
        = DispatchOutcome.response r
    ∧ dispatchOutcome (HandoffChoice.sent wi) (Phase2Event.reply { err := some e, resp := r })
        = DispatchOutcome.failure (GoErr.requestFailed e)
    ∧ workerStep cfg (WState.ready g) (WEvent.recvWork w)
        = some (WState.busyEncoding g w cfg.workerRequestTimeout false, none) := by
  refine ⟨?_, rfl, rfl, rfl, rfl⟩
  intro p2
  cases p2 with
  | ctxDone => simp [dispatchOutcome]
  | reply r2 => cases h : r2.err <;> simp [dispatchOutcome, h]

/-- C8 witness: instantiated at worker 0 and a cancellation reply. -/
theorem c8_witness :
    dispatchOutcome (HandoffChoice.sent 0) Phase2Event.ctxDone
      ≠ DispatchOutcome.failure GoErr.poolBusy :=
  (c8_no_second_timeout_after_acceptance 0 respEx GoErr.poolClosed cfgEx 0 wEx).1
    Phase2Event.ctxDone

/-- C9: a configuration with `NumWorkers = 0` (and a non-empty
WorkerProc) passes validation, and yields a pool with zero worker
loops; against such a pool no `sent` branch of the handoff select is
ever valid (a receive on the dispatch channel would have to be executed
by one of the zero loops), so while the pool is not closed the only
valid completion is the expired handoff timer and every Dispatch call
fails with PoolBusy — it never produces a response. -/
theorem c9_zero_workers_accepted_never_served (cfg : PoolConfig)
    (hn : cfg.numWorkers = 0) (hp : cfg.workerProc ≠ []) :
    createOk cfg = true
    ∧ ∀ p tr, newWorkerPool cfg = (Except.ok p, tr) →
        p.numLoops = 0
        ∧ ∀ env, envWF p env = true → env.closedAt = none →
          ∀ timeout,
            (∀ wi, handoffValid p timeout env (HandoffChoice.sent wi) = false)
            ∧ handoffValid p timeout env HandoffChoice.timerFired = true
            ∧ (∀ c, handoffValid p timeout env c = true →
                ∀ p2, dispatchOutcome c p2 = DispatchOutcome.failure GoErr.poolBusy) := by
  have h1 : ¬cfg.numWorkers < 0 := by omega
  constructor
  · simp [createOk, newWorkerPool_ok cfg h1 hp]
  · intro p tr hok
    rw [newWorkerPool_ok cfg h1 hp] at hok
    cases hok
    have hnl : cfg.numWorkers.toNat = 0 := by omega
    refine ⟨hnl, ?_⟩
    intro env hwf hopen timeout
    have hacc : env.acceptAt = none := by
      rcases ha : env.acceptAt with _ | a
      · rfl
      · simp [envWF, ha] at hwf
        omega
    refine ⟨?_, ?_, ?_⟩
    · intro wi
      simp [handoffValid, hacc]
    · simp [handoffValid, readyNoLater, acceptTime, hacc, hopen]
    · intro c hv p2
      cases c with
      | timerFired => rfl
      | ctxDone => simp [handoffValid, hopen] at hv
      | sent wi => simp [handoffValid, hacc] at hv

/-- C9 witness: the concrete zero-worker configuration is accepted, its
pool validates no `sent` branch, and the timer branch is valid. -/
theorem c9_witness :
    createOk cfgZero = true
    ∧ handoffValid pZero 3 envQuiet HandoffChoice.timerFired = true
    ∧ (∀ wi, handoffValid pZero 3 envQuiet (HandoffChoice.sent wi) = false) := by
  have h := c9_zero_workers_accepted_never_served cfgZero rfl (by simp [cfgZero])
  have h2 := (h.2 pZero [] rfl).2 envQuiet rfl rfl 3
  exact ⟨h.1, h2.2.1, h2.1⟩

/-- C10: a nil logger is never a configuration error — NewWorkerPool
substitutes a fresh default logger (`log15.New()`) before validating,
so the success of construction does not depend on the logger field, and
the constructed pool carries the default logger. -/
theorem c10_nil_logger_defaulted (cfg : PoolConfig) (hnil : cfg.logger = none) :
    createOk cfg = createOk { cfg with logger := some Logger.default }
    ∧ (0 ≤ cfg.numWorkers → cfg.workerProc ≠ [] →
        ∃ p tr, newWorkerPool cfg = (Except.ok p, tr)
          ∧ p.cfg.logger = some Logger.default) := by
  constructor
  · simp [createOk, newWorkerPool, hnil]
  · intro h0 hp
    have h1 : ¬cfg.numWorkers < 0 := by omega
    refine ⟨_, _, newWorkerPool_ok cfg h1 hp, ?_⟩
    simp [hnil]

/-- C10 witness: the concrete configuration with a nil logger is
constructed with the default logger substituted. -/
theorem c10_witness :
    ∃ p tr, newWorkerPool cfgEx = (Except.ok p, tr)
      ∧ p.cfg.logger = some Logger.default :=
  (c10_nil_logger_defaulted cfgEx rfl).2 (by decide) (by simp [cfgEx])

end Poolparty
